import Mathlib

/-!
Shallow embedding of the hyperion-delphioracle-plugin (src/index.ts).

The embedding models, faithfully to the TypeScript source:
  * the interval whitelists `CALENDAR_INTERVALS` / `FIXED_INTERVALS` and the
    classifier `getIntervalConfig`;
  * the `/v2/oracle/get_datapoints_histogram` route handler: parameter
    defaulting (JavaScript `x || d` on possibly-absent, possibly-falsy
    values), time-window resolution through `new Date(...).toISOString()`,
    construction of the Elasticsearch search body, execution against the
    storage collaborator (a function parameter), response shaping, and the
    catch-all error boundary;
  * the delta-ingestion handler registered by the plugin constructor.

JavaScript runtime behaviour that the route relies on is embedded
explicitly: `toISOString` (UTC, millisecond precision, proleptic Gregorian
via the standard civil-from-days conversion) and `new Date(string)`
restricted to strict `YYYY-MM-DDTHH:MM:SS(.mmm)?Z` input, the only date
format exercised here; an unparseable string yields an invalid date, whose
`toISOString` throws `RangeError: Invalid time value`.  Numeric metric
values are modelled as `Rat` (JSON numbers; NaN is outside the modelled
domain), and JavaScript truthiness on them is `≠ 0`, on strings `≠ ""`.
-/

namespace Delphi

/-- JavaScript `s || d` where `s : string | undefined` and `d` a string
default: `undefined` and the empty string are falsy. -/
def jsOrStr (o : Option String) (d : String) : String :=
  match o with
  | some s => if s = "" then d else s
  | none => d

/-- JavaScript `n || d` where `n : number | undefined`: `undefined` and `0`
are falsy. -/
def jsOrInt (o : Option Int) (d : Int) : Int :=
  match o with
  | some n => if n = 0 then d else n
  | none => d

/-- JavaScript truthiness of a possibly-absent number: `undefined` and `0`
are falsy. -/
def truthyNum (o : Option Int) : Bool :=
  match o with
  | some v => v != 0
  | none => false

/-- JavaScript truthiness of a possibly-absent string: `undefined` and the
empty string are falsy. -/
def truthyStrB (o : Option String) : Bool :=
  match o with
  | some s => s != ""
  | none => false

/-- JavaScript truthiness test on a possibly-absent string, returning the
string when truthy (`if (query.after) ...` keeps a non-empty string). -/
def jsTruthyStr (o : Option String) : Option String :=
  match o with
  | some s => if s = "" then none else some s
  | none => none

/-! ## Interval classification (src/index.ts lines 27-73) -/

/-- The `type` field of the object returned by `getIntervalConfig`. -/
inductive IntervalType
  | calendar
  | fixed
deriving DecidableEq, Repr

/-- Return type of `getIntervalConfig`: `{interval: string; type: 'calendar' | 'fixed'}`. -/
structure IntervalConfig where
  interval : String
  type : IntervalType
deriving DecidableEq, Repr

/-- `const CALENDAR_INTERVALS = ['1m', '1h', '1d', '1w', '1M', '1q', '1y']`. -/
def CALENDAR_INTERVALS : List String := ["1m", "1h", "1d", "1w", "1M", "1q", "1y"]

/-- `const FIXED_INTERVALS = [...]` (src/index.ts lines 30-52). -/
def FIXED_INTERVALS : List String :=
  ["1m", "2m", "5m", "10m", "15m", "20m", "30m",
   "1h", "2h", "3h", "4h", "5h", "6h", "8h", "12h",
   "1d", "2d", "3d", "7d", "1w", "2w"]

/-- `getIntervalConfig` (src/index.ts lines 55-73): empty string is falsy,
then membership in the calendar list, then the fixed list, else the
default `{interval: '1h', type: 'calendar'}`. -/
def getIntervalConfig (interval : String) : IntervalConfig :=
  if interval = "" then ⟨"1h", .calendar⟩
  else if interval ∈ CALENDAR_INTERVALS then ⟨interval, .calendar⟩
  else if interval ∈ FIXED_INTERVALS then ⟨interval, .fixed⟩
  else ⟨"1h", .calendar⟩

/-! ## JavaScript `Date` model: epoch milliseconds, civil conversion -/

/-- Days since 1970-01-01 of a civil date (proleptic Gregorian), the
standard era-based conversion used by ECMAScript engines. -/
def daysFromCivil (y m d : Int) : Int :=
  let y' := y - (if m ≤ 2 then 1 else 0)
  let era := Int.ediv y' 400
  let yoe := y' - era * 400
  let doy := (153 * (m + (if m > 2 then (-3 : Int) else 9)) + 2) / 5 + d - 1
  let doe := yoe * 365 + yoe / 4 - yoe / 100 + doy
  era * 146097 + doe - 719468

/-- Civil date (year, month, day) of a count of days since 1970-01-01. -/
def civilFromDays (z : Int) : Int × Int × Int :=
  let z' := z + 719468
  let era := Int.ediv z' 146097
  let doe := z' - era * 146097
  let yoe := (doe - doe / 1460 + doe / 36524 - doe / 146096) / 365
  let y := yoe + era * 400
  let doy := doe - (365 * yoe + yoe / 4 - yoe / 100)
  let mp := (5 * doy + 2) / 153
  let d := doy - (153 * mp + 2) / 5 + 1
  let m := mp + (if mp < 10 then 3 else (-9 : Int))
  (y + (if m ≤ 2 then 1 else 0), m, d)

/-- Left-pad the decimal form of a non-negative integer to two digits. -/
def pad2 (n : Int) : String :=
  (if n < 10 then "0" else "") ++ toString n

/-- Left-pad the decimal form of a non-negative integer to three digits. -/
def pad3 (n : Int) : String :=
  (if n < 10 then "00" else if n < 100 then "0" else "") ++ toString n

/-- Left-pad the decimal form of a non-negative integer to four digits. -/
def pad4 (n : Int) : String :=
  (if n < 10 then "000" else if n < 100 then "00" else if n < 1000 then "0" else "") ++ toString n

/-- `Date.prototype.toISOString` on an epoch-millisecond value (for years
0..9999, the four-digit-year regime): `YYYY-MM-DDTHH:MM:SS.sssZ`. -/
def toISOString (ms : Int) : String :=
  let days := Int.ediv ms 86400000
  let msOfDay := Int.emod ms 86400000
  let c := civilFromDays days
  let h := msOfDay / 3600000
  let mi := (msOfDay / 60000) % 60
  let s := (msOfDay / 1000) % 60
  let f := msOfDay % 1000
  pad4 c.1 ++ "-" ++ pad2 c.2.1 ++ "-" ++ pad2 c.2.2 ++ "T" ++
    pad2 h ++ ":" ++ pad2 mi ++ ":" ++ pad2 s ++ "." ++ pad3 f ++ "Z"

/-- Value of a decimal digit character. -/
def digitVal (c : Char) : Option Nat :=
  if c.isDigit then some (c.toNat - 48) else none

/-- Read two decimal digits off a character list. -/
def read2 : List Char → Option (Nat × List Char)
  | a :: b :: rest => do
    let x ← digitVal a
    let y ← digitVal b
    pure (10 * x + y, rest)
  | _ => none

/-- Read four decimal digits off a character list. -/
def read4 : List Char → Option (Nat × List Char)
  | a :: b :: c :: d :: rest => do
    let x ← digitVal a
    let y ← digitVal b
    let z ← digitVal c
    let w ← digitVal d
    pure (1000 * x + 100 * y + 10 * z + w, rest)
  | _ => none

/-- Consume one expected character. -/
def expectChar (c : Char) : List Char → Option (List Char)
  | x :: rest => if x = c then some rest else none
  | _ => none

/-- Read an optional `.mmm` millisecond part. -/
def readMs : List Char → Nat × List Char
  | '.' :: a :: b :: c :: rest =>
    match digitVal a, digitVal b, digitVal c with
    | some x, some y, some z => (100 * x + 10 * y + z, rest)
    | _, _, _ => (0, '.' :: a :: b :: c :: rest)
  | l => (0, l)

/-- Days in a month of the proleptic Gregorian calendar. -/
def daysInMonth (y m : Int) : Int :=
  if m = 2 then
    if Int.emod y 4 = 0 ∧ (Int.emod y 100 ≠ 0 ∨ Int.emod y 400 = 0) then 29 else 28
  else if m = 4 ∨ m = 6 ∨ m = 9 ∨ m = 11 then 30
  else 31

/-- `new Date(s).getTime()` for `s` in strict `YYYY-MM-DDTHH:MM:SS(.mmm)?Z`
form; `none` models an invalid date (`NaN` time value).  Other formats the
JavaScript runtime accepts are outside the modelled domain. -/
def jsDateParse (str : String) : Option Int := do
  let r := str.data
  let (y, r) ← read4 r
  let r ← expectChar '-' r
  let (mo, r) ← read2 r
  let r ← expectChar '-' r
  let (d, r) ← read2 r
  let r ← expectChar 'T' r
  let (h, r) ← read2 r
  let r ← expectChar ':' r
  let (mi, r) ← read2 r
  let r ← expectChar ':' r
  let (s, r) ← read2 r
  let (f, r) := readMs r
  let r ← expectChar 'Z' r
  if r = [] ∧ 1 ≤ mo ∧ mo ≤ 12 ∧ 1 ≤ d ∧ (d : Int) ≤ daysInMonth y mo ∧
      h ≤ 23 ∧ mi ≤ 59 ∧ s ≤ 59 then
    pure (daysFromCivil y mo d * 86400000 +
      (h : Int) * 3600000 + (mi : Int) * 60000 + (s : Int) * 1000 + f)
  else
    none

/-- `new Date(x).toISOString()` where `x` may be an invalid date: throws
`RangeError: Invalid time value` on an invalid date. -/
def jsToISOString (o : Option Int) : Except String String :=
  match o with
  | some ms => .ok (toISOString ms)
  | none => .error "Invalid time value"

/-! ## Route handler for `/v2/oracle/get_datapoints_histogram` -/

/-- `DelphioracleConfig` (src/index.ts lines 13-16): optional static
configuration. -/
structure DelphioracleConfig where
  table : Option String
  contract : Option String
deriving DecidableEq, Repr

/-- `OracleDatapointsQuery` (src/index.ts lines 18-24): the query string. -/
structure OracleDatapointsQuery where
  scope : Option String
  interval : Option String
  after : Option String
  before : Option String
  size : Option Int
deriving DecidableEq, Repr

/-- The `timeRange` object built by the handler: `gte`/`lte` ISO strings. -/
structure TimeRange where
  gte : String
  lte : String
deriving DecidableEq, Repr

/-- Time-window resolution (src/index.ts lines 108-120): `gte` from
`query.after` when truthy, else `now − 24h`; `lte` from `query.before`
when truthy, else `now`; each caller-supplied bound goes through
`new Date(...).toISOString()`, which throws on an unparseable string.
`now` is the epoch-millisecond instant at which the request runs. -/
def resolveTimeRange (q : OracleDatapointsQuery) (now : Int) : Except String TimeRange := do
  let gte ← match jsTruthyStr q.after with
    | some a => jsToISOString (jsDateParse a)
    | none => .ok (toISOString (now - 24 * 60 * 60 * 1000))
  let lte ← match jsTruthyStr q.before with
    | some b => jsToISOString (jsDateParse b)
    | none => .ok (toISOString now)
  .ok ⟨gte, lte⟩

/-- The Elasticsearch `searchBody` (src/index.ts lines 123-199), flattened:
the `date_histogram` config (field plus exactly one of
`calendar_interval`/`fixed_interval`), the four fixed per-bucket statistic
descriptors, `size`, and the three `term` filters and the `range` filter
of the `bool.must` clause. -/
structure SearchBody where
  agg_field : String
  calendar_interval : Option String
  fixed_interval : Option String
  avg_field : String
  min_field : String
  max_field : String
  median_field : String
  size : Int
  range_format : String
  range_gte : String
  range_lte : String
  term_code : String
  term_table : String
  term_scope : String
deriving DecidableEq, Repr

/-- Build the `searchBody` from the resolved parameters, exactly as the
object literal at src/index.ts lines 123-199. -/
def buildSearchBody (ic : IntervalConfig) (size : Int) (tr : TimeRange)
    (code table scope : String) : SearchBody :=
  { agg_field := "@timestamp"
    calendar_interval := if ic.type = .calendar then some ic.interval else none
    fixed_interval := if ic.type = .fixed then some ic.interval else none
    avg_field := "@datapoints.value"
    min_field := "@datapoints.value"
    max_field := "@datapoints.value"
    median_field := "@datapoints.median"
    size := size
    range_format := "strict_date_optional_time"
    range_gte := tr.gte
    range_lte := tr.lte
    term_code := code
    term_table := table
    term_scope := scope }

/-- One raw aggregation bucket as returned by the store.  Each statistic is
`none` when the sub-aggregation object is absent, `some none` when it is
present with `value: null`, and `some (some x)` when it reports the number
`x`. -/
structure StoreBucket where
  key : Int
  key_as_string : Option String
  doc_count : Int
  average_price : Option (Option Rat)
  min_price : Option (Option Rat)
  max_price : Option (Option Rat)
  median_price : Option (Option Rat)
deriving DecidableEq, Repr

/-- `results.hits`: the reported match total, absent when the store sends
none. -/
structure StoreHits where
  total : Option Int
deriving DecidableEq, Repr

/-- The store's search result: `hits?.total` and
`aggregations?.histogram?.buckets` (the bucket list is `none` when any
link of that optional chain is missing). -/
structure StoreResult where
  hits : Option StoreHits
  buckets : Option (List StoreBucket)
deriving DecidableEq, Repr

/-- `bucket.key_as_string || bucket.key`: a string when `key_as_string` is
truthy, else the raw numeric key. -/
inductive TsKey
  | str (s : String)
  | num (n : Int)
deriving DecidableEq, Repr

/-- One shaped histogram bucket of the response. -/
structure HistogramBucket where
  timestamp : TsKey
  doc_count : Int
  average_price : Option Rat
  min_price : Option Rat
  max_price : Option Rat
  median_price : Option Rat
deriving DecidableEq, Repr

/-- `bucket.stat?.value || null`: `null` when the sub-aggregation is
absent, its value is `null`, or its value is the falsy number `0`. -/
def jsNumOrNull (o : Option (Option Rat)) : Option Rat :=
  match o with
  | some (some x) => if x = 0 then none else some x
  | _ => none

/-- The per-bucket mapping (src/index.ts lines 223-232). -/
def shapeBucket (b : StoreBucket) : HistogramBucket :=
  { timestamp := match b.key_as_string with
      | some s => if s = "" then .num b.key else .str s
      | none => .num b.key
    doc_count := b.doc_count
    average_price := jsNumOrNull b.average_price
    min_price := jsNumOrNull b.min_price
    max_price := jsNumOrNull b.max_price
    median_price := jsNumOrNull b.median_price }

/-- `response.time_range`. -/
structure TimeRangeOut where
  fromTs : String
  toTs : String
deriving DecidableEq, Repr

/-- The response object (src/index.ts lines 207-232).  `fromTs`/`toTs`
stand for the JSON fields `from`/`to`. -/
structure Response where
  query_time_ms : Int
  scope : String
  contract : String
  table : String
  interval : String
  time_range : TimeRangeOut
  total_documents : Int
  histogram : List HistogramBucket
deriving DecidableEq, Repr

/-- Response shaping (src/index.ts lines 207-232): `total_documents` is
`results.hits?.total || 0`; `histogram` starts `[]` and is replaced by the
mapped buckets when `results.aggregations?.histogram?.buckets` exists. -/
def shapeResponse (scope contract table interval : String) (tr : TimeRange)
    (results : StoreResult) : Response :=
  { query_time_ms := 0
    scope := scope
    contract := contract
    table := table
    interval := interval
    time_range := ⟨tr.gte, tr.lte⟩
    total_documents := jsOrInt (results.hits.bind StoreHits.total) 0
    histogram := match results.buckets with
      | some bs => bs.map shapeBucket
      | none => [] }

/-- The body of the `try` block of the route handler (steps 1-6 of the
pipeline): parameter defaulting, window resolution, interval
classification, search-body construction, the store call (`store` is the
storage collaborator, which may fail), and response shaping.  An
`Except.error` is a thrown JavaScript exception carrying its message. -/
def runPipeline (cfg : DelphioracleConfig) (q : OracleDatapointsQuery) (now : Int)
    (store : SearchBody → Except String StoreResult) : Except String Response :=
  match resolveTimeRange q now with
  | .error e => .error e
  | .ok tr =>
    match store (buildSearchBody (getIntervalConfig (jsOrStr q.interval "1h"))
        (jsOrInt q.size 0) tr (jsOrStr cfg.contract "delphioracle")
        (jsOrStr cfg.table "datapoints") (jsOrStr q.scope "tlosusd")) with
    | .error e => .error e
    | .ok results =>
      .ok (shapeResponse (jsOrStr q.scope "tlosusd") (jsOrStr cfg.contract "delphioracle")
        (jsOrStr cfg.table "datapoints")
        (getIntervalConfig (jsOrStr q.interval "1h")).interval tr results)

/-- What the route sends back: `reply.send(response)` on success (HTTP
200), or the catch block's `reply.status(500).send({error, message})`. -/
inductive Reply
  | ok (status : Int) (r : Response)
  | err (status : Int) (error : String) (message : String)
deriving DecidableEq, Repr

/-- The whole route handler (src/index.ts lines 90-242): the try/catch
boundary around the pipeline.  Every thrown exception is converted into an
HTTP 500 reply with `error: 'Internal server error'` and the exception's
message. -/
def handler (cfg : DelphioracleConfig) (q : OracleDatapointsQuery) (now : Int)
    (store : SearchBody → Except String StoreResult) : Reply :=
  match runPipeline cfg q now store with
  | .ok r => .ok 200 r
  | .error e => .err 500 "Internal server error" e

/-! ## Delta-ingestion handler (plugin constructor, src/index.ts lines 245-281) -/

/-- The raw payload `delta['data']` of a chain-state delta record; each
field may be absent. `value` and `median` are stored as integers. -/
structure DeltaData where
  value : Option Int
  median : Option Int
  owner : Option String
deriving DecidableEq, Repr

/-- The nested object written under the key `'@' + tableName`. -/
structure AtTableObj where
  owner : String
  value : Int
  median : Int
deriving DecidableEq, Repr

/-- A delta record as the handler sees it: the raw `data` payload and the
dynamically-keyed derived field (key, object), each possibly absent. -/
structure HyperionDelta where
  data : Option DeltaData
  derived : Option (String × AtTableObj)
deriving DecidableEq, Repr

/-- The registered delta handler (src/index.ts lines 266-278): when
`data['value'] && data['median'] && data['owner']` are all truthy, write
`delta['@' + tableName] = {owner, value, median}` and `delete
delta['data']`; otherwise leave the record unchanged.  Accessing
`data['value']` on an absent payload throws a `TypeError`. -/
def deltaHandler (tableName : String) (delta : HyperionDelta) :
    Except String HyperionDelta :=
  match delta.data with
  | none => .error "Cannot read properties of undefined"
  | some d =>
    if truthyNum d.value && truthyNum d.median && truthyStrB d.owner then
      .ok { data := none
            derived := some ("@" ++ tableName,
              { owner := d.owner.getD ""
                value := d.value.getD 0
                median := d.median.getD 0 }) }
    else
      .ok delta

/-- The entry pushed onto `deltaHandlers` by the constructor. -/
structure DeltaHandlerReg where
  table : String
  contract : String
  handle : HyperionDelta → Except String HyperionDelta

/-- The constructor's registration (src/index.ts lines 252-278): table and
contract default from config, and the handler closes over the resolved
table name. -/
def mkDeltaHandler (config : DelphioracleConfig) : DeltaHandlerReg :=
  { table := jsOrStr config.table "datapoints"
    contract := jsOrStr config.contract "delphioracle"
    handle := deltaHandler (jsOrStr config.table "datapoints") }

/-! ## Helper lemmas -/

/-- Inversion of a successful pipeline run: the window resolved to some
`tr`, the store succeeded on the search body built from the resolved
parameters, and the reply is the shaped response. -/
theorem runPipeline_ok_inv (cfg : DelphioracleConfig) (q : OracleDatapointsQuery)
    (now : Int) (store : SearchBody → Except String StoreResult) (r : Response)
    (h : runPipeline cfg q now store = .ok r) :
    ∃ tr results,
      resolveTimeRange q now = .ok tr ∧
      store (buildSearchBody (getIntervalConfig (jsOrStr q.interval "1h"))
        (jsOrInt q.size 0) tr (jsOrStr cfg.contract "delphioracle")
        (jsOrStr cfg.table "datapoints") (jsOrStr q.scope "tlosusd")) = .ok results ∧
      r = shapeResponse (jsOrStr q.scope "tlosusd") (jsOrStr cfg.contract "delphioracle")
        (jsOrStr cfg.table "datapoints")
        (getIntervalConfig (jsOrStr q.interval "1h")).interval tr results := by
  unfold runPipeline at h
  split at h
  next heq => cases h
  next tr heq =>
    split at h
    next heq2 => cases h
    next results heq2 =>
      cases h
      exact ⟨tr, results, heq, heq2, rfl⟩

/-- A token outside both whitelists classifies to the default. -/
theorem getIntervalConfig_default (t : String)
    (hc : t ∉ CALENDAR_INTERVALS) (hf : t ∉ FIXED_INTERVALS) :
    getIntervalConfig t = ⟨"1h", IntervalType.calendar⟩ := by
  unfold getIntervalConfig
  split_ifs with ha <;> rfl

/-- The classified token always lies in one of the two whitelists. -/
theorem getIntervalConfig_mem (t : String) :
    (getIntervalConfig t).interval ∈ CALENDAR_INTERVALS ∨
    (getIntervalConfig t).interval ∈ FIXED_INTERVALS := by
  unfold getIntervalConfig
  split_ifs with ha hb hd
  · exact Or.inl (by decide)
  · exact Or.inl hb
  · exact Or.inr hd
  · exact Or.inl (by decide)

/-! ## C1 -/

/-- C1 counterexample: the two whitelists are NOT disjoint — `"1m"` is in
both — and `classify("1m")` returns kind Calendar, not Fixed, because the
calendar check runs first. -/
theorem C1_counterexample :
    ("1m" ∈ CALENDAR_INTERVALS ∧ "1m" ∈ FIXED_INTERVALS) ∧
    getIntervalConfig "1m" ≠ ⟨"1m", IntervalType.fixed⟩ := by
  decide

/-- C1 amended: the calendar and fixed whitelists overlap exactly on
`1m`, `1h`, `1d`, `1w`; every fixed-whitelist token outside the calendar
whitelist classifies as `(token, Fixed)`, while a token in both lists
classifies as `(token, Calendar)`. -/
theorem C1_overlap_and_fixed_classification :
    CALENDAR_INTERVALS.inter FIXED_INTERVALS = ["1m", "1h", "1d", "1w"] ∧
    (∀ t ∈ FIXED_INTERVALS, t ∉ CALENDAR_INTERVALS →
      getIntervalConfig t = ⟨t, IntervalType.fixed⟩) ∧
    (∀ t ∈ FIXED_INTERVALS, t ∈ CALENDAR_INTERVALS →
      getIntervalConfig t = ⟨t, IntervalType.calendar⟩) := by
  refine ⟨by decide, ?_, ?_⟩
  · intro t ht h
    fin_cases ht <;> first
      | exact absurd (by decide) h
      | decide
  · intro t ht h
    fin_cases ht <;> first
      | decide
      | exact absurd h (by decide)

/-- C1 witness: `"2m"` is fixed-only and classifies as Fixed. -/
theorem C1_witness :
    getIntervalConfig "2m" = ⟨"2m", IntervalType.fixed⟩ :=
  C1_overlap_and_fixed_classification.2.1 "2m" (by decide) (by decide)

/-! ## C5 -/

/-- C5: `getIntervalConfig` is total with no error case: every calendar
token maps to itself with kind Calendar; the empty token, the absent
token (which the route coerces to `'1h'` via `query.interval || '1h'`),
and any token in neither whitelist (e.g. `"3m"`) map to the default
`("1h", Calendar)`. -/
theorem C5_classifier_total :
    (∀ t ∈ CALENDAR_INTERVALS, getIntervalConfig t = ⟨t, IntervalType.calendar⟩) ∧
    getIntervalConfig "" = ⟨"1h", IntervalType.calendar⟩ ∧
    getIntervalConfig (jsOrStr none "1h") = ⟨"1h", IntervalType.calendar⟩ ∧
    getIntervalConfig "3m" = ⟨"1h", IntervalType.calendar⟩ ∧
    (∀ t, t ∉ CALENDAR_INTERVALS → t ∉ FIXED_INTERVALS →
      getIntervalConfig t = ⟨"1h", IntervalType.calendar⟩) := by
  refine ⟨?_, by decide, by decide, by decide, ?_⟩
  · intro t ht
    fin_cases ht <;> decide
  · exact getIntervalConfig_default

/-- C5 witness: an arbitrary out-of-whitelist token falls back to the
default. -/
theorem C5_witness :
    getIntervalConfig "abc" = ⟨"1h", IntervalType.calendar⟩ :=
  C5_classifier_total.2.2.2.2 "abc" (by decide) (by decide)

/-! ## C10 -/

/-- C10: the classified interval token always belongs to the union of the
two whitelists; a token outside both is never echoed back — the
classifier, and hence the response's `interval` field of any successful
pipeline run, yields `"1h"` for it. -/
theorem C10_interval_whitelisted (cfg : DelphioracleConfig)
    (q : OracleDatapointsQuery) (now : Int)
    (store : SearchBody → Except String StoreResult) (t : String) :
    ((getIntervalConfig t).interval ∈ CALENDAR_INTERVALS ∨
      (getIntervalConfig t).interval ∈ FIXED_INTERVALS) ∧
    (t ∉ CALENDAR_INTERVALS → t ∉ FIXED_INTERVALS →
      (getIntervalConfig t).interval = "1h") ∧
    (∀ r, runPipeline cfg q now store = .ok r →
      (r.interval ∈ CALENDAR_INTERVALS ∨ r.interval ∈ FIXED_INTERVALS) ∧
      (q.interval = some t → t ∉ CALENDAR_INTERVALS → t ∉ FIXED_INTERVALS →
        r.interval = "1h")) := by
  refine ⟨getIntervalConfig_mem t, ?_, ?_⟩
  · intro hc hf
    rw [getIntervalConfig_default t hc hf]
  · intro r hr
    obtain ⟨tr, results, _, _, hrs⟩ := runPipeline_ok_inv cfg q now store r hr
    subst hrs
    refine ⟨getIntervalConfig_mem _, ?_⟩
    intro hq hc hf
    rw [hq]
    show (getIntervalConfig (jsOrStr (some t) "1h")).interval = "1h"
    unfold jsOrStr
    by_cases ht : t = ""
    · simp [ht]
      decide
    · simp [ht]
      rw [getIntervalConfig_default t hc hf]

/-- C10 witness: a request carrying the unknown token `"3m"` against an
always-succeeding empty store gets `"1h"` echoed back. -/
theorem C10_witness :
    ((getIntervalConfig "3m").interval ∈ CALENDAR_INTERVALS ∨
      (getIntervalConfig "3m").interval ∈ FIXED_INTERVALS) ∧
    (getIntervalConfig "3m").interval = "1h" := by
  have h := C10_interval_whitelisted ⟨none, none⟩ ⟨none, some "3m", none, none, none⟩ 0
    (fun _ => .ok ⟨none, none⟩) "3m"
  exact ⟨h.1, h.2.1 (by decide) (by decide)⟩

/-- Behaviour of the `stat?.value || null` mapping: a non-zero reported
value passes through; the result is null exactly when the sub-aggregation
is absent, reports null, or reports the falsy number 0. -/
theorem jsNumOrNull_spec (o : Option (Option Rat)) :
    (∀ x : Rat, x ≠ 0 → o = some (some x) → jsNumOrNull o = some x) ∧
    (jsNumOrNull o = none ↔ o = none ∨ o = some none ∨ o = some (some 0)) := by
  constructor
  · intro x hx ho
    subst ho
    simp [jsNumOrNull, hx]
  · match o with
    | none => simp [jsNumOrNull]
    | some none => simp [jsNumOrNull]
    | some (some x) =>
      by_cases hx : x = 0 <;> simp [jsNumOrNull, hx]

/-! ## C2 -/

/-- C2 counterexample: a bucket whose `average_price` sub-aggregation
reports the value 0 is shaped to `null`, not to the reported value 0,
because `0 || null` is `null` in JavaScript. -/
theorem C2_counterexample :
    (shapeBucket ⟨0, none, 1, some (some 0), none, none, none⟩).average_price = none ∧
    (shapeBucket ⟨0, none, 1, some (some 0), none, none, none⟩).average_price ≠ some 0 := by
  decide

/-- C2 amended: each of the four per-bucket statistics equals the
store-reported value whenever the store reports a non-zero value for it,
and is null exactly when the store reports no value, a null value, or the
falsy value 0; the claim's example (average 10, no median
sub-aggregation) shapes to average 10 and median null. -/
theorem C2_statistic_shaping (b : StoreBucket) :
    ((∀ x : Rat, x ≠ 0 → b.average_price = some (some x) →
        (shapeBucket b).average_price = some x) ∧
      ((shapeBucket b).average_price = none ↔
        b.average_price = none ∨ b.average_price = some none ∨
          b.average_price = some (some 0))) ∧
    ((∀ x : Rat, x ≠ 0 → b.min_price = some (some x) →
        (shapeBucket b).min_price = some x) ∧
      ((shapeBucket b).min_price = none ↔
        b.min_price = none ∨ b.min_price = some none ∨ b.min_price = some (some 0))) ∧
    ((∀ x : Rat, x ≠ 0 → b.max_price = some (some x) →
        (shapeBucket b).max_price = some x) ∧
      ((shapeBucket b).max_price = none ↔
        b.max_price = none ∨ b.max_price = some none ∨ b.max_price = some (some 0))) ∧
    ((∀ x : Rat, x ≠ 0 → b.median_price = some (some x) →
        (shapeBucket b).median_price = some x) ∧
      ((shapeBucket b).median_price = none ↔
        b.median_price = none ∨ b.median_price = some none ∨
          b.median_price = some (some 0))) ∧
    ((shapeBucket ⟨0, none, 3, some (some 10), none, none, none⟩).average_price = some 10 ∧
      (shapeBucket ⟨0, none, 3, some (some 10), none, none, none⟩).median_price = none) :=
  ⟨jsNumOrNull_spec b.average_price, jsNumOrNull_spec b.min_price,
    jsNumOrNull_spec b.max_price, jsNumOrNull_spec b.median_price,
    by decide, by decide⟩

/-- C2 witness: the claim's own example bucket, average 10 with no median
sub-aggregation, shapes to average 10. -/
theorem C2_witness :
    (shapeBucket ⟨0, none, 3, some (some 10), none, none, none⟩).average_price = some 10 :=
  (C2_statistic_shaping ⟨0, none, 3, some (some 10), none, none, none⟩).1.1 10
    (by decide) rfl

/-! ## C6 -/

/-- C6: a store result with no bucket list (broken optional chain) or an
empty bucket list shapes to an empty histogram, and `total_documents` is
the store-reported match total, 0 when the store reports none. -/
theorem C6_empty_buckets (scope contract table interval : String) (tr : TimeRange)
    (results : StoreResult)
    (h : results.buckets = none ∨ results.buckets = some []) :
    (shapeResponse scope contract table interval tr results).histogram = [] ∧
    (∀ t : Int, results.hits = some ⟨some t⟩ →
      (shapeResponse scope contract table interval tr results).total_documents = t) ∧
    ((results.hits = none ∨ results.hits = some ⟨none⟩) →
      (shapeResponse scope contract table interval tr results).total_documents = 0) := by
  refine ⟨?_, ?_, ?_⟩
  · rcases h with h | h <;> simp [shapeResponse, h]
  · intro t ht
    simp only [shapeResponse, ht, Option.bind_some, jsOrInt]
    by_cases h0 : t = 0 <;> simp [h0]
  · intro ht
    rcases ht with ht | ht <;> simp [shapeResponse, ht, jsOrInt]

/-- C6 witness: a match total of 5 with an empty bucket list yields
`total_documents = 5` and an empty histogram. -/
theorem C6_witness :
    (shapeResponse "tlosusd" "delphioracle" "datapoints" "1h" ⟨"a", "b"⟩
      ⟨some ⟨some 5⟩, some []⟩).histogram = [] ∧
    (shapeResponse "tlosusd" "delphioracle" "datapoints" "1h" ⟨"a", "b"⟩
      ⟨some ⟨some 5⟩, some []⟩).total_documents = 5 := by
  have h := C6_empty_buckets "tlosusd" "delphioracle" "datapoints" "1h" ⟨"a", "b"⟩
    ⟨some ⟨some 5⟩, some []⟩ (Or.inr rfl)
  exact ⟨h.1, h.2.1 5 rfl⟩

/-! ## C3 -/

/-- C3 counterexample: with `after = "2024-01-01T00:00:00Z"` and
`before = "2024-01-02T00:00:00Z"`, the resolved window is NOT exactly the
supplied strings — `toISOString` appends milliseconds, yielding
`"2024-01-01T00:00:00.000Z"`. -/
theorem C3_counterexample :
    resolveTimeRange ⟨none, none, some "2024-01-01T00:00:00Z",
      some "2024-01-02T00:00:00Z", none⟩ 0 =
      .ok ⟨"2024-01-01T00:00:00.000Z", "2024-01-02T00:00:00.000Z"⟩ ∧
    "2024-01-01T00:00:00.000Z" ≠ "2024-01-01T00:00:00Z" :=
  ⟨rfl, by decide⟩

/-- C3 amended: for that request the resolved window is the canonical
millisecond-precision serialization of the supplied instants,
`2024-01-01T00:00:00.000Z` / `2024-01-02T00:00:00.000Z`; these exact
strings go into the request filter (the search body passes the window
through verbatim) and are echoed in the response's `time_range`. -/
theorem C3_canonicalized_window (cfg : DelphioracleConfig) (now : Int)
    (store : SearchBody → Except String StoreResult) :
    resolveTimeRange ⟨none, none, some "2024-01-01T00:00:00Z",
      some "2024-01-02T00:00:00Z", none⟩ now =
      .ok ⟨"2024-01-01T00:00:00.000Z", "2024-01-02T00:00:00.000Z"⟩ ∧
    (∀ ic sz code table scope,
      (buildSearchBody ic sz ⟨"2024-01-01T00:00:00.000Z", "2024-01-02T00:00:00.000Z"⟩
          code table scope).range_gte = "2024-01-01T00:00:00.000Z" ∧
      (buildSearchBody ic sz ⟨"2024-01-01T00:00:00.000Z", "2024-01-02T00:00:00.000Z"⟩
          code table scope).range_lte = "2024-01-02T00:00:00.000Z") ∧
    (∀ r, runPipeline cfg ⟨none, none, some "2024-01-01T00:00:00Z",
        some "2024-01-02T00:00:00Z", none⟩ now store = .ok r →
      r.time_range = ⟨"2024-01-01T00:00:00.000Z", "2024-01-02T00:00:00.000Z"⟩) := by
  have h0 : resolveTimeRange ⟨none, none, some "2024-01-01T00:00:00Z",
      some "2024-01-02T00:00:00Z", none⟩ now =
      .ok ⟨"2024-01-01T00:00:00.000Z", "2024-01-02T00:00:00.000Z"⟩ := rfl
  refine ⟨h0, fun ic sz code table scope => ⟨rfl, rfl⟩, ?_⟩
  intro r hr
  obtain ⟨tr, results, htr, _, hrs⟩ := runPipeline_ok_inv _ _ _ _ _ hr
  rw [h0] at htr
  obtain rfl := Except.ok.inj htr
  subst hrs
  rfl

/-- C3 witness: the amended window resolution and its echo through the
shaped response at a concrete run. -/
theorem C3_witness :
    resolveTimeRange ⟨none, none, some "2024-01-01T00:00:00Z",
      some "2024-01-02T00:00:00Z", none⟩ 12345 =
      .ok ⟨"2024-01-01T00:00:00.000Z", "2024-01-02T00:00:00.000Z"⟩ ∧
    (shapeResponse "tlosusd" "delphioracle" "datapoints" "1h"
      ⟨"2024-01-01T00:00:00.000Z", "2024-01-02T00:00:00.000Z"⟩ ⟨none, none⟩).time_range =
      ⟨"2024-01-01T00:00:00.000Z", "2024-01-02T00:00:00.000Z"⟩ := by
  have h := C3_canonicalized_window ⟨none, none⟩ 12345 (fun _ => Except.ok ⟨none, none⟩)
  exact ⟨h.1, h.2.2 _ rfl⟩

/-! ## C7 -/

/-- C7: with no `after` and no `before`, the resolved window is
`[now − 24h, now]`, both bounds serialized through `toISOString`, and any
successful pipeline run echoes exactly that window in the response's
`time_range` (`now` is the epoch-millisecond instant the request runs
at). -/
theorem C7_default_window (cfg : DelphioracleConfig) (q : OracleDatapointsQuery)
    (now : Int) (store : SearchBody → Except String StoreResult)
    (ha : q.after = none) (hb : q.before = none) :
    resolveTimeRange q now =
      .ok ⟨toISOString (now - 24 * 60 * 60 * 1000), toISOString now⟩ ∧
    ∀ r, runPipeline cfg q now store = .ok r →
      r.time_range = ⟨toISOString (now - 24 * 60 * 60 * 1000), toISOString now⟩ := by
  have h0 : resolveTimeRange q now =
      .ok ⟨toISOString (now - 24 * 60 * 60 * 1000), toISOString now⟩ := by
    unfold resolveTimeRange
    rw [ha, hb]
    rfl
  refine ⟨h0, ?_⟩
  intro r hr
  obtain ⟨tr, results, htr, _, hrs⟩ := runPipeline_ok_inv cfg q now store r hr
  rw [h0] at htr
  obtain rfl := Except.ok.inj htr
  subst hrs
  rfl

/-- C7 witness: at `now = 172800000` (1970-01-03) the default window is
1970-01-02 to 1970-01-03. -/
theorem C7_witness :
    resolveTimeRange ⟨none, none, none, none, none⟩ 172800000 =
      .ok ⟨"1970-01-02T00:00:00.000Z", "1970-01-03T00:00:00.000Z"⟩ := by
  have h := C7_default_window ⟨none, none⟩ ⟨none, none, none, none, none⟩ 172800000
    (fun _ => Except.ok ⟨none, none⟩) rfl rfl
  exact h.1

/-! ## C8 -/

/-- C8: when the request omits `scope` and the static configuration omits
`contract` and `table`, the defaults `tlosusd` / `delphioracle` /
`datapoints` are used in the search body's term filters and appear
verbatim in the response's `scope` / `contract` / `table` fields. -/
theorem C8_defaults (cfg : DelphioracleConfig) (q : OracleDatapointsQuery)
    (now : Int) (store : SearchBody → Except String StoreResult)
    (hs : q.scope = none) (hc : cfg.contract = none) (ht : cfg.table = none) :
    (∀ ic sz tr,
      (buildSearchBody ic sz tr (jsOrStr cfg.contract "delphioracle")
        (jsOrStr cfg.table "datapoints") (jsOrStr q.scope "tlosusd")).term_scope =
          "tlosusd" ∧
      (buildSearchBody ic sz tr (jsOrStr cfg.contract "delphioracle")
        (jsOrStr cfg.table "datapoints") (jsOrStr q.scope "tlosusd")).term_code =
          "delphioracle" ∧
      (buildSearchBody ic sz tr (jsOrStr cfg.contract "delphioracle")
        (jsOrStr cfg.table "datapoints") (jsOrStr q.scope "tlosusd")).term_table =
          "datapoints") ∧
    (∀ r, runPipeline cfg q now store = .ok r →
      r.scope = "tlosusd" ∧ r.contract = "delphioracle" ∧ r.table = "datapoints") := by
  constructor
  · intro ic sz tr
    rw [hs, hc, ht]
    exact ⟨rfl, rfl, rfl⟩
  · intro r hr
    obtain ⟨tr, results, _, _, hrs⟩ := runPipeline_ok_inv cfg q now store r hr
    subst hrs
    rw [hs, hc, ht]
    exact ⟨rfl, rfl, rfl⟩

/-- C8 witness: the default identifiers land in the term filters of a
concretely built search body. -/
theorem C8_witness :
    (buildSearchBody ⟨"1h", IntervalType.calendar⟩ 0 ⟨"a", "b"⟩
      (jsOrStr none "delphioracle") (jsOrStr none "datapoints")
      (jsOrStr none "tlosusd")).term_scope = "tlosusd" ∧
    (buildSearchBody ⟨"1h", IntervalType.calendar⟩ 0 ⟨"a", "b"⟩
      (jsOrStr none "delphioracle") (jsOrStr none "datapoints")
      (jsOrStr none "tlosusd")).term_code = "delphioracle" ∧
    (buildSearchBody ⟨"1h", IntervalType.calendar⟩ 0 ⟨"a", "b"⟩
      (jsOrStr none "delphioracle") (jsOrStr none "datapoints")
      (jsOrStr none "tlosusd")).term_table = "datapoints" := by
  have h := C8_defaults ⟨none, none⟩ ⟨none, none, none, none, none⟩ 0
    (fun _ => Except.ok ⟨none, none⟩) rfl rfl rfl
  exact h.1 ⟨"1h", IntervalType.calendar⟩ 0 ⟨"a", "b"⟩

/-! ## C4 -/

/-- C4: every exception raised inside the pipeline — store failures
included — is caught at the try/catch boundary: the caller gets HTTP 500
with `error = "Internal server error"` and `message` equal to the thrown
error's message, and the handler never produces anything but a plain
reply (no exception escapes). -/
theorem C4_error_boundary (cfg : DelphioracleConfig) (q : OracleDatapointsQuery)
    (now : Int) (store : SearchBody → Except String StoreResult) :
    (∀ e, runPipeline cfg q now store = .error e →
      handler cfg q now store = .err 500 "Internal server error" e) ∧
    ((∃ r, handler cfg q now store = .ok 200 r) ∨
      (∃ e, runPipeline cfg q now store = .error e ∧
        handler cfg q now store = .err 500 "Internal server error" e)) := by
  constructor
  · intro e he
    unfold handler
    rw [he]
  · cases h : runPipeline cfg q now store with
    | ok r => exact Or.inl ⟨r, by unfold handler; rw [h]⟩
    | error e => exact Or.inr ⟨e, rfl, by unfold handler; rw [h]⟩

/-- C4 witness: a store that throws `"store exploded"` yields exactly the
500 reply carrying that message. -/
theorem C4_witness :
    handler ⟨none, none⟩ ⟨none, none, none, none, none⟩ 86400000
      (fun _ => Except.error "store exploded") =
      Reply.err 500 "Internal server error" "store exploded" :=
  (C4_error_boundary ⟨none, none⟩ ⟨none, none, none, none, none⟩ 86400000
    (fun _ => Except.error "store exploded")).1 "store exploded" rfl

/-! ## C9 -/

/-- C9: a delta record whose payload carries truthy `value`, `median` and
`owner` fields (non-zero integers, non-empty string) is rewritten by the
registered handler to the nested object keyed `'@' + tableName` holding
exactly those three fields, and the raw `data` payload is removed. -/
theorem C9_delta_rewrite (config : DelphioracleConfig) (delta : HyperionDelta)
    (d : DeltaData) (v m : Int) (o : String)
    (hd : delta.data = some d) (hv : d.value = some v) (hm : d.median = some m)
    (ho : d.owner = some o) (hv0 : v ≠ 0) (hm0 : m ≠ 0) (ho0 : o ≠ "") :
    (mkDeltaHandler config).handle delta =
      .ok { data := none
            derived := some ("@" ++ (mkDeltaHandler config).table, ⟨o, v, m⟩) } := by
  show deltaHandler (jsOrStr config.table "datapoints") delta = _
  unfold deltaHandler
  rw [hd]
  dsimp only
  rw [hv, hm, ho]
  rw [if_pos (by simp [truthyNum, truthyStrB, hv0, hm0, ho0])]
  rfl

/-- C9 witness: a concrete record `{value: 100, median: 99, owner:
"alice"}` under the default configuration becomes
`{'@datapoints': {owner: "alice", value: 100, median: 99}}` with `data`
removed. -/
theorem C9_witness :
    (mkDeltaHandler ⟨none, none⟩).handle ⟨some ⟨some 100, some 99, some "alice"⟩, none⟩ =
      .ok ⟨none, some ("@datapoints", ⟨"alice", 100, 99⟩)⟩ :=
  C9_delta_rewrite ⟨none, none⟩ ⟨some ⟨some 100, some 99, some "alice"⟩, none⟩
    ⟨some 100, some 99, some "alice"⟩ 100 99 "alice" rfl rfl rfl rfl
    (by decide) (by decide) (by decide)

end Delphi
